import Mathlib

/-!
Verification development for the TG.NakrutkaGuard anti-raid bot.

Shallow embedding of the core logic of the repository:
* `bot/utils/join_counter.py`  — sliding-window join counter (`JoinCounter`)
* `bot/utils/scoring.py`       — risk scorer (`score_user`)
* `bot/utils/detector.py`      — attack detector state machine
* `bot/handlers/members.py`    — join-event handler (kick decisions)
* `bot/handlers/captcha.py`    — verification workflow (answer / timeout paths)
* `bot/utils/scoring_auto_adjust.py` — adaptive weight tuner
* `bot/database.py`            — the data contracts the above consume

Conventions: Python floats are modelled by `ℚ` (exact arithmetic), Python
ints by `ℤ`, Python `time.time()` instants by `ℚ` supplied explicitly,
`None`-able values by `Option`, and a Python `dict` whose key set matters
by a structure with `Option` fields (a `none` field = key absent).
Stateful code is explicit state passing.
-/

namespace NakrutkaGuard

/-! ## Join window counter (`bot/utils/join_counter.py`)

`JoinCounter` holds, per chat, a deque of join timestamps (`_joins`) and a
deque of `(timestamp, user_id, is_premium)` triples (`_join_users`).  The
front of each list is the oldest entry.  Both query operations first pop
stale entries (`timestamp < now - window_seconds`) from the front — a
`dropWhile` — and then report over what remains. -/

structure JoinCounter where
  joins : Int → List ℚ
  joinUsers : Int → List (ℚ × Int × Bool)

def JoinCounter.empty : JoinCounter :=
  { joins := fun _ => [], joinUsers := fun _ => [] }

/-- `JoinCounter.add_join`: append `now` to the chat's timestamp deque and,
when a user id is given, append `(now, user_id, is_premium)` to the user
deque (join_counter.py lines 22-35). -/
def addJoin (st : JoinCounter) (chatId : Int) (userId : Option Int)
    (isPremium : Bool) (now : ℚ) : JoinCounter :=
  { joins := Function.update st.joins chatId (st.joins chatId ++ [now])
    joinUsers :=
      match userId with
      | some uid =>
          Function.update st.joinUsers chatId
            (st.joinUsers chatId ++ [(now, uid, isPremium)])
      | none => st.joinUsers }

/-- `JoinCounter.count_in_window`: evict entries with
`timestamp < now - window_seconds` from the front of the chat's timestamp
deque, then return the remaining length (join_counter.py lines 37-57).
The eviction mutates the stored state, so the new state is returned too. -/
def countInWindow (st : JoinCounter) (chatId : Int) (windowSeconds : Int)
    (now : ℚ) : Nat × JoinCounter :=
  let cutoff : ℚ := now - windowSeconds
  let q := (st.joins chatId).dropWhile (fun t => decide (t < cutoff))
  (q.length, { st with joins := Function.update st.joins chatId q })

/-- `JoinCounter.get_users_in_window`: evict stale entries from the front of
the chat's user deque, then return the `(user_id, is_premium)` pairs that
remain (join_counter.py lines 59-78). -/
def getUsersInWindow (st : JoinCounter) (chatId : Int) (windowSeconds : Int)
    (now : ℚ) : List (Int × Bool) × JoinCounter :=
  let cutoff : ℚ := now - windowSeconds
  let q := (st.joinUsers chatId).dropWhile (fun e => decide (e.1 < cutoff))
  (q.map (fun e => (e.2.1, e.2.2)),
   { st with joinUsers := Function.update st.joinUsers chatId q })

/-! Helper lemmas: on a list whose elements are in nondecreasing order (the
timestamps come from a monotone clock at `add_join` time), popping stale
entries from the front is the same as filtering out all stale entries. -/

theorem dropWhile_lt_eq_filter_of_sorted {c : ℚ} :
    ∀ {l : List ℚ}, l.Sorted (· ≤ ·) →
      l.dropWhile (fun t => decide (t < c)) = l.filter (fun t => decide (c ≤ t)) := by
  intro l
  induction l with
  | nil => intro _; rfl
  | cons a l ih =>
    intro h
    rw [List.sorted_cons] at h
    by_cases hac : a < c
    · have hfa : ¬ c ≤ a := not_le.mpr hac
      simp only [List.dropWhile_cons, List.filter_cons, hac, hfa, decide_eq_true_eq,
        if_pos, if_neg, not_false_eq_true, decide_eq_false]
      exact ih h.2
    · have hca : c ≤ a := not_lt.mp hac
      have hall : ∀ x ∈ l, c ≤ x := fun x hx => le_trans hca (h.1 x hx)
      simp only [List.dropWhile_cons, List.filter_cons, hac, hca, decide_eq_true_eq,
        if_neg, if_pos, not_false_eq_true, decide_eq_false]
      rw [List.filter_eq_self.mpr]
      · simp
      · intro x hx
        exact decide_eq_true (hall x hx)

theorem dropWhile_fst_lt_eq_filter_of_sorted {c : ℚ} :
    ∀ {l : List (ℚ × Int × Bool)}, (l.map Prod.fst).Sorted (· ≤ ·) →
      l.dropWhile (fun e => decide (e.1 < c))
        = l.filter (fun e => decide (c ≤ e.1)) := by
  intro l
  induction l with
  | nil => intro _; rfl
  | cons a l ih =>
    intro h
    rw [List.map_cons, List.sorted_cons] at h
    by_cases hac : a.1 < c
    · have hfa : ¬ c ≤ a.1 := not_le.mpr hac
      simp only [List.dropWhile_cons, List.filter_cons, hac, hfa, decide_eq_true_eq,
        if_pos, if_neg, not_false_eq_true, decide_eq_false]
      exact ih h.2
    · have hca : c ≤ a.1 := not_lt.mp hac
      have hall : ∀ x ∈ l, c ≤ x.1 := by
        intro x hx
        exact le_trans hca (h.1 x.1 (List.mem_map_of_mem Prod.fst hx))
      simp only [List.dropWhile_cons, List.filter_cons, hac, hca, decide_eq_true_eq,
        if_neg, if_pos, not_false_eq_true, decide_eq_false]
      rw [List.filter_eq_self.mpr]
      · simp
      · intro x hx
        exact decide_eq_true (hall x hx)

/-- **C3.** For every sequence of recorded joins of a community and every
query time, `count_in_window` counts exactly the recorded join events with
timestamp ≥ `now - window_seconds` (first conjunct), and in particular,
after recording one more join at time `t0` and fast-forwarding the clock
more than `window_seconds` past it, the count returns to 0 (second
conjunct).  The hypotheses state that the recorded timestamps are in
nondecreasing order, which is how `add_join` records them (it stamps each
entry with the then-current clock). -/
theorem claim_C3_count_in_window_no_stale
    (st : JoinCounter) (chatId : Int) (w : Int) (now : ℚ)
    (hsorted : (st.joins chatId).Sorted (· ≤ ·)) :
    (countInWindow st chatId w now).1
        = ((st.joins chatId).filter (fun t => decide (now - w ≤ t))).length
    ∧ (∀ (uid : Option Int) (prem : Bool) (t0 : ℚ),
        (∀ t ∈ st.joins chatId, t ≤ t0) → t0 < now - w →
        (countInWindow (addJoin st chatId uid prem t0) chatId w now).1 = 0) := by
  constructor
  · simp only [countInWindow]
    rw [dropWhile_lt_eq_filter_of_sorted hsorted]
  · intro uid prem t0 hle hlt
    have hjoins : (addJoin st chatId uid prem t0).joins chatId
        = st.joins chatId ++ [t0] := by
      simp [addJoin]
    have hsorted' : (st.joins chatId ++ [t0]).Sorted (· ≤ ·) := by
      apply List.pairwise_append.mpr
      refine ⟨hsorted, List.sorted_singleton t0, ?_⟩
      intro x hx y hy
      rw [List.mem_singleton] at hy
      subst hy
      exact hle x hx
    simp only [countInWindow, hjoins]
    rw [dropWhile_lt_eq_filter_of_sorted hsorted', List.length_eq_zero,
      List.filter_eq_nil_iff]
    intro a ha
    rw [List.mem_append] at ha
    simp only [decide_eq_true_eq, not_le]
    rcases ha with h1 | h1
    · exact lt_of_le_of_lt (hle a h1) hlt
    · rw [List.mem_singleton] at h1
      subst h1
      exact hlt

/-- Witness for C3: a concrete counter, one recorded join at time 10,
window 60 seconds, queried at time 100 (more than 60 past the join):
count is 0. -/
theorem claim_C3_witness :
    (JoinCounter.empty.joins 1).Sorted (· ≤ ·)
    ∧ (∀ t ∈ JoinCounter.empty.joins 1, t ≤ (10 : ℚ))
    ∧ (10 : ℚ) < 100 - (60 : Int)
    ∧ (countInWindow (addJoin JoinCounter.empty 1 (some 5) false 10) 1 60 100).1 = 0 :=
  ⟨List.sorted_nil, by intro t ht; exact absurd ht (List.not_mem_nil t), by norm_num,
    (claim_C3_count_in_window_no_stale JoinCounter.empty 1 60 100 List.sorted_nil).2
      (some 5) false 10 (by intro t ht; exact absurd ht (List.not_mem_nil t))
      (by norm_num)⟩

/-- **C10.** `count_in_window chat W` / `get_users_in_window chat W` mutate
internal state by removing exactly the chat's entries older than `now - W`
from the queue they inspect, and nothing else: other chats' queues and the
remaining newer entries of the same chat are unchanged.  Consequently
eviction is destructive: a later query on the same chat with a wider window
`W' > W` observes exactly the survivors of the earlier query (it cannot see
the evicted joins).  Timestamp queues are in nondecreasing order, as
`add_join` records them. -/
theorem claim_C10_eviction_frame_destructive
    (st : JoinCounter) (chatId : Int) (w w' : Int) (now : ℚ)
    (hsj : (st.joins chatId).Sorted (· ≤ ·))
    (hsu : ((st.joinUsers chatId).map Prod.fst).Sorted (· ≤ ·))
    (hww : w < w') :
    ((countInWindow st chatId w now).2.joins chatId
        = (st.joins chatId).filter (fun t => decide (now - w ≤ t)))
    ∧ (∀ ch : Int, ch ≠ chatId →
        (countInWindow st chatId w now).2.joins ch = st.joins ch)
    ∧ ((countInWindow st chatId w now).2.joinUsers = st.joinUsers)
    ∧ ((countInWindow (countInWindow st chatId w now).2 chatId w' now).1
        = (countInWindow st chatId w now).1)
    ∧ ((getUsersInWindow st chatId w now).2.joinUsers chatId
        = (st.joinUsers chatId).filter (fun e => decide (now - w ≤ e.1)))
    ∧ (∀ ch : Int, ch ≠ chatId →
        (getUsersInWindow st chatId w now).2.joinUsers ch = st.joinUsers ch)
    ∧ ((getUsersInWindow st chatId w now).2.joins = st.joins)
    ∧ ((getUsersInWindow (getUsersInWindow st chatId w now).2 chatId w' now).1
        = (getUsersInWindow st chatId w now).1) := by
  have hcast : (now - w' : ℚ) ≤ now - w := by
    have : (w : ℚ) ≤ (w' : ℚ) := by exact_mod_cast hww.le
    linarith
  have hall : ∀ t ∈ (st.joins chatId).filter (fun t => decide (now - w ≤ t)),
      now - w' ≤ t := by
    intro t ht
    have := List.of_mem_filter ht
    rw [decide_eq_true_eq] at this
    exact le_trans hcast this
  have hallu : ∀ e ∈ (st.joinUsers chatId).filter (fun e => decide (now - w ≤ e.1)),
      now - w' ≤ e.1 := by
    intro e he
    have := List.of_mem_filter he
    rw [decide_eq_true_eq] at this
    exact le_trans hcast this
  have hsjf : ((st.joins chatId).filter (fun t => decide (now - w ≤ t))).Sorted (· ≤ ·) :=
    hsj.filter _
  have hsuf : (((st.joinUsers chatId).filter
      (fun e => decide (now - w ≤ e.1))).map Prod.fst).Sorted (· ≤ ·) :=
    List.Pairwise.sublist (List.Sublist.map Prod.fst (List.filter_sublist _)) hsu
  refine ⟨?_, ?_, ?_, ?_, ?_, ?_, ?_, ?_⟩
  · simp only [countInWindow, Function.update_same]
    rw [dropWhile_lt_eq_filter_of_sorted hsj]
  · intro ch hch
    simp only [countInWindow]
    exact Function.update_noteq hch _ _
  · rfl
  · simp only [countInWindow, Function.update_same]
    rw [dropWhile_lt_eq_filter_of_sorted hsj,
      dropWhile_lt_eq_filter_of_sorted hsjf, List.filter_eq_self.mpr]
    intro a ha
    exact decide_eq_true (hall a ha)
  · simp only [getUsersInWindow, Function.update_same]
    rw [dropWhile_fst_lt_eq_filter_of_sorted hsu]
  · intro ch hch
    simp only [getUsersInWindow]
    exact Function.update_noteq hch _ _
  · rfl
  · simp only [getUsersInWindow, Function.update_same]
    rw [dropWhile_fst_lt_eq_filter_of_sorted hsu,
      dropWhile_fst_lt_eq_filter_of_sorted hsuf, List.filter_eq_self.mpr]
    intro a ha
    exact decide_eq_true (hallu a ha)

/-- Witness for C10: a concrete two-chat counter with joins at times 10 and
50 in chat 1, window 60 queried at time 100 (cutoff 40): the join at 10 is
evicted, chat 2 is untouched, and a follow-up query with the wider window
120 still reports only the surviving join. -/
theorem claim_C10_witness :
    (((addJoin (addJoin (addJoin JoinCounter.empty 1 (some 7) false 10)
          1 (some 8) true 50) 2 (some 9) false 30).joins 1).Sorted (· ≤ ·))
    ∧ ((((addJoin (addJoin (addJoin JoinCounter.empty 1 (some 7) false 10)
          1 (some 8) true 50) 2 (some 9) false 30).joinUsers 1).map
          Prod.fst).Sorted (· ≤ ·))
    ∧ ((60 : Int) < 120)
    ∧ ((countInWindow (countInWindow (addJoin (addJoin (addJoin JoinCounter.empty
          1 (some 7) false 10) 1 (some 8) true 50) 2 (some 9) false 30)
          1 60 100).2 1 120 100).1
        = (countInWindow (addJoin (addJoin (addJoin JoinCounter.empty
          1 (some 7) false 10) 1 (some 8) true 50) 2 (some 9) false 30)
          1 60 100).1) := by
  refine ⟨by decide, by decide, by decide, ?_⟩
  exact (claim_C10_eviction_frame_destructive _ 1 60 120 100 (by decide) (by decide)
    (by decide)).2.2.2.1

/-! ## Risk scorer (`bot/utils/scoring.py`) -/

/-- Python `int()` applied to a float: truncation toward zero. -/
def pyTrunc (q : ℚ) : ℤ := if 0 ≤ q then ⌊q⌋ else ⌈q⌉

/-- Python truthiness of an optional integer: `None` and `0` are falsy.
`_compute_id_risk` tests `if not stats.p95_id or not stats.p99_id`. -/
def optIntFalsy : Option ℤ → Bool
  | none => true
  | some v => v == 0

/-- Association-list lookup, modelling `dict.get(key)`. -/
def dictGet {α : Type} (d : List (String × α)) (k : String) : Option α :=
  (d.find? (fun e => e.1 == k)).map (fun e => e.2)

/-- The `ScoringConfig` dataclass (scoring.py lines 15-34), with its
declared per-feature defaults. -/
structure ScoringConfig where
  lang_distribution : List (String × ℚ)
  max_lang_risk : ℤ := 25
  no_lang_risk : ℤ := 15
  max_id_risk : ℤ := 20
  premium_bonus : ℤ := -20
  no_avatar_risk : ℤ := 15
  one_avatar_risk : ℤ := 5
  no_username_risk : ℤ := 15
  weird_name_risk : ℤ := 10
  exotic_script_risk : ℤ := 25
  special_chars_risk : ℤ := 15
  repeating_chars_risk : ℤ := 5
  random_username_risk : ℤ := 15

/-- The `ScoringStats` dataclass (scoring.py lines 37-48). -/
structure ScoringStats where
  lang_counts : List (String × ℤ)
  total_good_joins : ℤ
  p95_id : Option ℤ := none
  p99_id : Option ℤ := none

/-- ASCII letter, the regex class `[a-zA-Z]`. -/
def isAsciiLetter (c : Char) : Bool :=
  ('a' ≤ c && c ≤ 'z') || ('A' ≤ c && c ≤ 'Z')

/-- `_normalize_lang` (scoring.py lines 79-83): the base language code is
the greedy match of `^[a-zA-Z]{2,3}`, lowercased; with no match (fewer than
two leading letters) the whole tag is lowercased.  Language tags are ASCII,
so `Char.toLower` is faithful. -/
def normalizeLang (lang : String) : String :=
  let p := lang.data.takeWhile isAsciiLetter
  if 2 ≤ p.length then String.mk ((p.take 3).map Char.toLower)
  else String.mk (lang.data.map Char.toLower)

/-- `_compute_lang_risk` (scoring.py lines 86-126).  `ℚ` replaces Python
floats; the `sum(...) or 1.0` falsiness trick is the `if s = 0` branch. -/
def computeLangRisk (userLang : Option String) (cfg : ScoringConfig)
    (stats : ScoringStats) : ℤ :=
  match userLang with
  | none => cfg.no_lang_risk
  | some l =>
    if l = "" then cfg.no_lang_risk
    else
      let lang := normalizeLang l
      let s := (cfg.lang_distribution.map Prod.snd).sum
      let totalExpected : ℚ := if s = 0 then 1 else s
      let expectedShare : ℚ := ((dictGet cfg.lang_distribution lang).getD 0) / totalExpected
      let empiricalShare : ℚ :=
        if 0 < stats.total_good_joins then
          ((dictGet stats.lang_counts lang).getD 0 : ℚ) / (stats.total_good_joins : ℚ)
        else expectedShare
      let combinedShare : ℚ := 7/10 * expectedShare + 3/10 * empiricalShare
      let combinedShare := max 0 (min 1 combinedShare)
      if 1/100 < combinedShare then -(pyTrunc (combinedShare * (cfg.max_lang_risk : ℚ)))
      else cfg.max_lang_risk

/-- `_compute_id_risk` (scoring.py lines 129-141): `int(max_risk * 0.5)` is
truncation toward zero of half the configured maximum. -/
def computeIdRisk (userId : ℤ) (cfg : ScoringConfig) (stats : ScoringStats) : ℤ :=
  if optIntFalsy stats.p95_id || optIntFalsy stats.p99_id then 0
  else if stats.p99_id.getD 0 < userId then cfg.max_id_risk
  else if stats.p95_id.getD 0 < userId then pyTrunc ((cfg.max_id_risk : ℚ) * (1/2))
  else 0

/-- Latin or Cyrillic letter, the regex `NAME_HAS_LAT_CYR_RE` =
`[A-Za-zА-Яа-я]` (Cyrillic span U+0410–U+044F). -/
def isLatCyr (c : Char) : Bool :=
  isAsciiLetter c || (0x410 ≤ c.toNat && c.toNat ≤ 0x44F)

/-- The code-point ranges of `NAME_EXOTIC_SCRIPT_RE` (scoring.py lines
57-74): Arabic, CJK, Hiragana, Katakana, Hangul, Ethiopic, Thai, Bengali,
Gurmukhi, Malayalam, Kannada, Oriya, Thaana, Hangul Jamo. -/
def exoticRanges : List (Nat × Nat) :=
  [(0x600, 0x6FF), (0x4E00, 0x9FFF), (0x3040, 0x309F), (0x30A0, 0x30FF),
   (0xAC00, 0xD7AF), (0x1200, 0x137F), (0xE00, 0xE7F), (0x980, 0x9FF),
   (0xA00, 0xA7F), (0xD00, 0xD7F), (0xC80, 0xCFF), (0xB00, 0xB7F),
   (0x780, 0x7BF), (0x1100, 0x11FF)]

def isExoticScript (c : Char) : Bool :=
  exoticRanges.any (fun r => r.1 ≤ c.toNat && c.toNat ≤ r.2)

/-- The character set of `NAME_SPECIAL_CHARS_RE` (scoring.py line 77);
brace, backslash and backtick are written via code points. -/
def specialCharList : List Char :=
  ['<', '>', '«', '»', '@', '#', '$', '%', '^', '&', '*', '+', '=',
   '[', ']', Char.ofNat 0x7B, Char.ofNat 0x7D, '|', Char.ofNat 0x5C,
   Char.ofNat 0x60, '~']

/-- `str.lower()` restricted to the scripts the name checks distinguish
(ASCII and the basic Cyrillic block); other characters are unchanged. -/
def pyLower (c : Char) : Char :=
  if 'A' ≤ c && c ≤ 'Z' then Char.ofNat (c.toNat + 0x20)
  else if 0x410 ≤ c.toNat && c.toNat ≤ 0x42F then Char.ofNat (c.toNat + 0x20)
  else if c.toNat = 0x401 then Char.ofNat 0x451
  else c

/-- `str.isalnum()` over the same scripts: ASCII digits and Latin/Cyrillic
letters. -/
def pyIsAlnum (c : Char) : Bool :=
  c.isDigit || isLatCyr c || c.toNat == 0x401 || c.toNat == 0x451

/-- The repeated-character scan of `score_user` (scoring.py lines 222-233):
`max_repeat` starts at 1; a run grows only while the case-folded character
equals the current one and is alphanumeric. -/
def maxRepeatScan (fullName : List Char) : ℕ :=
  match fullName with
  | [] => 1
  | c0 :: rest =>
    (rest.foldl
      (fun acc ch =>
        if pyLower ch == acc.1 && pyIsAlnum ch then
          (acc.1, acc.2.1 + 1, max acc.2.2 (acc.2.1 + 1))
        else
          (pyLower ch, 1, acc.2.2))
      (pyLower c0, 1, 1)).2.2

/-- The joining account's observable attributes — the aiogram `User` fields
`score_user` reads. -/
structure TgUser where
  id : ℤ
  is_premium : Option Bool := none
  language_code : Option String := none
  username : Option String := none
  first_name : Option String := none
  last_name : Option String := none

/-- The final normalisation of `score_user`: `max(0, min(100, score))`
(scoring.py line 264). -/
def clampScore (s : ℤ) : ℤ := max 0 (min 100 s)

/-- `score_user` (scoring.py lines 150-296).  The username-randomness
classifier (`username_randomness` in `bot/utils/username_analysis.py`)
computes a float score involving the non-rational power `tr ** 0.65` and
compares it to the fixed threshold 0.60; `score_user` consumes only the
resulting Boolean `is_randomish`, which is therefore passed as an explicit
classifier argument, universally quantified in every theorem below. -/
def scoreUser (user : TgUser) (photoCount : ℕ) (cfg : ScoringConfig)
    (stats : ScoringStats) (isRandomish : String → Bool) : ℤ :=
  let isPrem := user.is_premium.getD false
  let score1 : ℤ := if isPrem then cfg.premium_bonus else 0
  let score2 := score1 + computeLangRisk user.language_code cfg stats
  let score3 :=
    if photoCount = 0 then score2 + cfg.no_avatar_risk
    else if photoCount = 1 then score2 + cfg.one_avatar_risk
    else score2
  let username := user.username.getD ""
  let score4 :=
    if username = "" then score3 + cfg.no_username_risk
    else if isRandomish username then score3 + cfg.random_username_risk
    else score3
  let fullName := ((user.first_name.getD "") ++ " " ++ (user.last_name.getD "")).trim
  let hasNormalLetters := fullName.data.any isLatCyr
  let hasExotic := fullName.data.any isExoticScript
  let hasSpecial := fullName.data.any (fun c => specialCharList.contains c)
  let maxRepeat := maxRepeatScan fullName.data
  let score5 := if hasNormalLetters then score4 else score4 + cfg.weird_name_risk
  let score6 := if hasExotic then score5 + cfg.exotic_script_risk else score5
  let score7 := if hasSpecial then score6 + cfg.special_chars_risk else score6
  let score8 := if 5 ≤ maxRepeat then score7 + cfg.repeating_chars_risk else score7
  let score9 := score8 + computeIdRisk user.id cfg stats
  clampScore score9

theorem clampScore_nonneg (s : ℤ) : 0 ≤ clampScore s := le_max_left 0 _

theorem clampScore_le_hundred (s : ℤ) : clampScore s ≤ 100 :=
  max_le (by norm_num) (min_le_left 100 s)

/-- **C1.** For every joining user, every weight configuration (arbitrary,
even out-of-range weight values), every photo count, every statistics input
and every username classifier outcome, `score_user` returns an integer `s`
with `0 ≤ s ≤ 100`: the raw additive sum is clamped at the end, so the
bound holds even when the sum is negative or exceeds 100. -/
theorem claim_C1_score_user_bounded (user : TgUser) (photoCount : ℕ)
    (cfg : ScoringConfig) (stats : ScoringStats) (isRandomish : String → Bool) :
    0 ≤ scoreUser user photoCount cfg stats isRandomish
    ∧ scoreUser user photoCount cfg stats isRandomish ≤ 100 := by
  unfold scoreUser
  exact ⟨clampScore_nonneg _, clampScore_le_hundred _⟩

/-! ## Scoring configuration contract
(`bot/database.py` and `bot/handlers/members.py`) -/

/-- The dictionary returned by `Database.get_scoring_config` (database.py
lines 340-373), as probed by its consumers.  Plain fields are keys the
query always sets; `Option` fields (suffix `_opt`) are keys consumers probe
that the query may omit — `none` means the key is absent, so a Python
`d[key]` subscript raises `KeyError` while `d.get(key, default)` falls back. -/
structure PyScoringCfg where
  threshold : ℤ
  lang_distribution : List (String × ℚ)
  max_lang_risk : ℤ
  no_lang_risk : ℤ
  max_id_risk : ℤ
  premium_bonus : ℤ
  no_avatar_risk : ℤ
  one_avatar_risk : ℤ
  no_username_risk : ℤ
  weird_name_risk : ℤ
  arabic_cjk_risk : ℤ
  auto_adjust : Bool
  random_username_risk_opt : Option ℤ := none
  exotic_script_risk_opt : Option ℤ := none
  special_chars_risk_opt : Option ℤ := none
  repeating_chars_risk_opt : Option ℤ := none

/-- `Database.get_scoring_config` (database.py lines 340-373): the stored
`scoring_weights` JSON map is consulted with `weights.get(key, default)`
for exactly the nine keys below; no other weight key is placed in the
result — in particular `random_username_risk`, `exotic_script_risk`,
`special_chars_risk` and `repeating_chars_risk` are always absent. -/
def getScoringConfig (storedWeights : List (String × ℤ)) (scoringThreshold : ℤ)
    (langDist : List (String × ℚ)) (autoAdjust : Bool) : PyScoringCfg :=
  { threshold := scoringThreshold
    lang_distribution := langDist
    max_lang_risk := (dictGet storedWeights "max_lang_risk").getD 25
    no_lang_risk := (dictGet storedWeights "no_lang_risk").getD 15
    max_id_risk := (dictGet storedWeights "max_id_risk").getD 20
    premium_bonus := (dictGet storedWeights "premium_bonus").getD (-20)
    no_avatar_risk := (dictGet storedWeights "no_avatar_risk").getD 15
    one_avatar_risk := (dictGet storedWeights "one_avatar_risk").getD 5
    no_username_risk := (dictGet storedWeights "no_username_risk").getD 5
    weird_name_risk := (dictGet storedWeights "weird_name_risk").getD 10
    arabic_cjk_risk := (dictGet storedWeights "arabic_cjk_risk").getD 25
    auto_adjust := autoAdjust }

/-- Python `d[key]` on a possibly-absent key: `KeyError` when absent. -/
def pyIndex {α : Type} (v : Option α) (key : String) : Except String α :=
  match v with
  | some x => Except.ok x
  | none => Except.error key

/-- The `ScoringConfig(...)` construction in the join handler (members.py
lines 156-170, identically in captcha.py lines 64-78): direct subscripts
for the keys the query result carries, `.get` fallbacks for
`exotic_script_risk` (falling back to the `arabic_cjk_risk` value; that
inner `.get` default of 25 is unreachable), `special_chars_risk` (15) and
`repeating_chars_risk` (5), and a direct subscript
`scoring_config_data['random_username_risk']`. -/
def buildScoringConfig (d : PyScoringCfg) : Except String ScoringConfig := do
  let rand ← pyIndex d.random_username_risk_opt "random_username_risk"
  Except.ok
    { lang_distribution := d.lang_distribution
      max_lang_risk := d.max_lang_risk
      no_lang_risk := d.no_lang_risk
      max_id_risk := d.max_id_risk
      premium_bonus := d.premium_bonus
      no_avatar_risk := d.no_avatar_risk
      one_avatar_risk := d.one_avatar_risk
      no_username_risk := d.no_username_risk
      weird_name_risk := d.weird_name_risk
      exotic_script_risk := d.exotic_script_risk_opt.getD d.arabic_cjk_risk
      special_chars_risk := d.special_chars_risk_opt.getD 15
      repeating_chars_risk := d.repeating_chars_risk_opt.getD 5
      random_username_risk := rand }

/-- **C9 (refuted by the code).** The claim says that with missing weight
keys the scorer substitutes documented defaults and scoring proceeds
without failing.  `get_scoring_config` does substitute defaults for its
nine keys, but it never emits the `random_username_risk` key, and the join
handler reads it with a direct subscript: for *every* stored weights map
(missing, empty, or arbitrary — even one containing that key), building
the `ScoringConfig` raises `KeyError('random_username_risk')`, the
surrounding `except` swallows it, and the joining user is never scored. -/
theorem claim_C9_scoring_config_key_absent (storedWeights : List (String × ℤ))
    (threshold : ℤ) (langDist : List (String × ℚ)) (autoAdjust : Bool) :
    buildScoringConfig (getScoringConfig storedWeights threshold langDist autoAdjust)
      = Except.error "random_username_risk" := rfl

/-! ## Adaptive weight tuner (`bot/utils/scoring_auto_adjust.py`) -/

/-- The statistics dictionary produced by `Database.get_failed_captcha_stats`
(database.py lines 407-530): counts and feature frequencies over the failed
population of the trailing window.  The unconsumed `top_failed_langs` and
`new_id_rate` entries are omitted. -/
structure FailedStats where
  total_failed : ℕ
  no_username_rate : ℚ
  arabic_cjk_rate : ℚ
  weird_name_rate : ℚ
  no_avatar_rate : ℚ
  one_avatar_rate : ℚ
  no_language_rate : ℚ
  id_above_p95_rate : ℚ
  id_above_p99_rate : ℚ
  avg_failed_score : ℤ

/-- A `good_users` table row (database.py lines 81-94), the attributes
recorded for a user who passed verification. -/
structure GoodUserRow where
  user_id : ℤ
  username : Option String := none
  language_code : Option String := none
  is_premium : Bool := false
  photo_count : ℕ := 0
  scoring_score : ℤ := 0
  verified_at : ℤ
deriving DecidableEq

/-- The statistics dictionary produced by `Database.get_good_users_stats`
(database.py lines 544-615); the unconsumed `top_langs` entry is omitted.
Note which feature frequencies exist for the successful population:
username and language only — no avatar, name-script or id-percentile
frequency is ever computed for successful users. -/
structure GoodStats where
  total_good : ℕ
  no_username_rate : ℚ
  no_language_rate : ℚ
  premium_rate : ℚ
  avg_user_id : ℤ
  avg_score : ℤ

/-- SQL `username IS NULL OR username = ''` (and the same for
`language_code`). -/
def optStrFalsy : Option String → Bool
  | none => true
  | some s => s == ""

/-- `Database.get_good_users_stats` (database.py lines 544-615): restrict to
rows with `verified_at ≥ now - days·24·60·60`; below `min_samples` rows the
result is `None`; otherwise report the feature frequencies and truncated
averages. -/
def getGoodUsersStats (rows : List GoodUserRow) (nowT : ℤ) (days : ℤ)
    (minSamples : ℕ) : Option GoodStats :=
  let cutoff := nowT - days * 24 * 60 * 60
  let recent := rows.filter (fun r => decide (cutoff ≤ r.verified_at))
  let total := recent.length
  if total < minSamples then none
  else
    some { total_good := total
           no_username_rate := ((recent.filter (fun r => optStrFalsy r.username)).length : ℚ) / total
           no_language_rate := ((recent.filter (fun r => optStrFalsy r.language_code)).length : ℚ) / total
           premium_rate := ((recent.filter (fun r => r.is_premium)).length : ℚ) / total
           avg_user_id := pyTrunc (((recent.map GoodUserRow.user_id).sum : ℚ) / total)
           avg_score := pyTrunc (((recent.map GoodUserRow.scoring_score).sum : ℚ) / total) }

/-- The textual change log of `auto_adjust_scoring`, with the formatted
strings abstracted to tagged entries carrying the same information. -/
inductive TunerChange where
  | suppressed (feature : String)
  | adjusted (feature : String) (oldVal newVal : ℤ)
  | thresholdLowered (oldVal newVal : ℤ)
deriving DecidableEq, Repr

/-- The outcome dictionary of a run of `auto_adjust_scoring` that applied
changes: the updated weights, the (possibly lowered) threshold and the
change log. -/
structure AdjustOutcome where
  no_username_risk : ℤ
  arabic_cjk_risk : ℤ
  weird_name_risk : ℤ
  no_avatar_risk : ℤ
  one_avatar_risk : ℤ
  no_lang_risk : ℤ
  max_id_risk : ℤ
  random_username_risk : ℤ
  threshold : ℤ
  changes : List TunerChange
deriving DecidableEq, Repr

/-- Result of one feature block: the (possibly updated) weight, the change
entries appended and whether `weights_changed` was set. -/
structure FeatAdj where
  weight : ℤ
  changes : List TunerChange
  changed : Bool

/-- A feature block without a false-positive guard (the
`arabic_cjk_risk` / `weird_name_risk` / `no_avatar_risk` /
`one_avatar_risk` blocks, scoring_auto_adjust.py lines 84-117): if the
failed-population frequency exceeds 0.70, raise the weight by the fixed
step 5 clamped to the feature's ceiling. -/
def adjustUnguarded (feat : String) (failedRate : ℚ) (old ceiling : ℤ) : FeatAdj :=
  if 7/10 < failedRate then
    let newW := min (old + 5) ceiling
    if newW ≠ old then ⟨newW, [.adjusted feat old newW], true⟩
    else ⟨old, [], false⟩
  else ⟨old, [], false⟩

/-- A feature block with the false-positive guard (the `no_username_risk`
block at lines 68-81 and the `no_lang_risk` block at lines 119-134): when
good-user statistics exist and the feature's frequency among successful
users exceeds 0.50, the increase is skipped and the suppression logged. -/
def adjustGuarded (feat : String) (failedRate : ℚ) (hasGood : Bool)
    (goodRate : ℚ) (old ceiling : ℤ) : FeatAdj :=
  if 7/10 < failedRate then
    if hasGood && decide (1/2 < goodRate) then ⟨old, [.suppressed feat], false⟩
    else
      let newW := min (old + 5) ceiling
      if newW ≠ old then ⟨newW, [.adjusted feat old newW], true⟩
      else ⟨old, [], false⟩
  else ⟨old, [], false⟩

/-- The id-risk block (scoring_auto_adjust.py lines 137-155): the p99
frequency takes precedence, the p95 frequency is an `elif`; both raise
`max_id_risk` by 5 clamped to 30, with no false-positive guard. -/
def adjustIdRisk (p99Rate p95Rate : ℚ) (old : ℤ) : FeatAdj :=
  if 7/10 < p99Rate then adjustUnguarded "max_id_risk" p99Rate old 30
  else if 7/10 < p95Rate then adjustUnguarded "max_id_risk" p95Rate old 30
  else ⟨old, [], false⟩

/-- The threshold block (scoring_auto_adjust.py lines 157-170): when the
average failed score is positive and within 10 points of the threshold,
lower the threshold by 5, floored at 20. -/
def adjustThresholdStep (threshold avgFailedScore : ℤ) : ℤ × List TunerChange × Bool :=
  if 0 < avgFailedScore ∧ threshold - 10 ≤ avgFailedScore then
    let newT := max (threshold - 5) 20
    if newT ≠ threshold then (newT, [.thresholdLowered threshold newT], true)
    else (threshold, [], false)
  else (threshold, [], false)

/-- `auto_adjust_scoring` (scoring_auto_adjust.py lines 11-206).  Aborts
with `None` when the configuration is absent, auto-adjust is disabled, or
the failed statistics are absent (fetched with `min_samples=30`).  The
`current_weights` dictionary (lines 47-56) is then built from eight direct
subscripts of the configuration — the last of which,
`config['random_username_risk']`, raises `KeyError` whenever the
configuration came from `get_scoring_config`.  Afterwards the feature
blocks run in source order; a result is returned only when some weight or
the threshold actually changed. -/
def autoAdjustScoring (configOpt : Option PyScoringCfg)
    (failedStatsOpt : Option FailedStats) (goodStatsOpt : Option GoodStats) :
    Except String (Option AdjustOutcome) :=
  match configOpt with
  | none => Except.ok none
  | some config =>
    if config.auto_adjust = false then Except.ok none
    else
      match failedStatsOpt with
      | none => Except.ok none
      | some fs =>
        match config.random_username_risk_opt with
        | none => Except.error "random_username_risk"
        | some randW =>
          let hasGood := goodStatsOpt.isSome
          let goodU : ℚ := match goodStatsOpt with | some gs => gs.no_username_rate | none => 0
          let goodL : ℚ := match goodStatsOpt with | some gs => gs.no_language_rate | none => 0
          let aU := adjustGuarded "no_username_risk" fs.no_username_rate hasGood goodU config.no_username_risk 30
          let aC := adjustUnguarded "arabic_cjk_risk" fs.arabic_cjk_rate config.arabic_cjk_risk 40
          let aW := adjustUnguarded "weird_name_risk" fs.weird_name_rate config.weird_name_risk 25
          let aA := adjustUnguarded "no_avatar_risk" fs.no_avatar_rate config.no_avatar_risk 30
          let aO := adjustUnguarded "one_avatar_risk" fs.one_avatar_rate config.one_avatar_risk 15
          let aL := adjustGuarded "no_lang_risk" fs.no_language_rate hasGood goodL config.no_lang_risk 25
          let aI := adjustIdRisk fs.id_above_p99_rate fs.id_above_p95_rate config.max_id_risk
          let tAdj := adjustThresholdStep config.threshold fs.avg_failed_score
          let changes := aU.changes ++ aC.changes ++ aW.changes ++ aA.changes
            ++ aO.changes ++ aL.changes ++ aI.changes ++ tAdj.2.1
          let weightsChanged := aU.changed || aC.changed || aW.changed
            || aA.changed || aO.changed || aL.changed || aI.changed
          if weightsChanged || tAdj.2.2 then
            Except.ok (some
              { no_username_risk := aU.weight
                arabic_cjk_risk := aC.weight
                weird_name_risk := aW.weight
                no_avatar_risk := aA.weight
                one_avatar_risk := aO.weight
                no_lang_risk := aL.weight
                max_id_risk := aI.weight
                random_username_risk := randW
                threshold := tAdj.1
                changes := changes })
          else Except.ok none

/-- `should_trigger_auto_adjust` (scoring_auto_adjust.py lines 209-221):
the failed statistics are fetched with `min_samples=1` (absent only with no
recorded failure); the tuner is triggered on every positive multiple of 50
failed verifications. -/
def shouldTriggerAutoAdjust (failedStatsOpt : Option FailedStats) : Bool :=
  match failedStatsOpt with
  | none => false
  | some fs => decide (0 < fs.total_failed) && fs.total_failed % 50 == 0

/-- C8 failed-population statistics: the spec's own example — 50 failed
verifications in the window, a 75% no-username rate among them. -/
def exampleFailedC8 : FailedStats :=
  { total_failed := 50, no_username_rate := 3/4, arabic_cjk_rate := 0,
    weird_name_rate := 0, no_avatar_rate := 0, one_avatar_rate := 0,
    no_language_rate := 0, id_above_p95_rate := 0, id_above_p99_rate := 0,
    avg_failed_score := 0 }

/-- C8 successful-population statistics: 40 samples, 20% no-username rate
(so the false-positive guard would not fire). -/
def exampleGoodC8 : GoodStats :=
  { total_good := 40, no_username_rate := 1/5, no_language_rate := 0,
    premium_rate := 0, avg_user_id := 0, avg_score := 0 }

/-- **C8 (trigger semantics hold; the promised increase never happens).**
With 50 failed verifications the trigger fires and with 49 it does not —
but on the very configuration `get_scoring_config` produces (here: default
stored weights), `auto_adjust_scoring` aborts with
`KeyError('random_username_risk')` while building `current_weights`, so
`no_username_risk` is *not* increased by 5 even though the frequency signal
(0.75 failed vs 0.20 successful) qualifies. -/
theorem claim_C8_trigger_then_key_absent :
    shouldTriggerAutoAdjust (some exampleFailedC8) = true
    ∧ shouldTriggerAutoAdjust (some { exampleFailedC8 with total_failed := 49 }) = false
    ∧ autoAdjustScoring (some (getScoringConfig [] 50 [] true))
        (some exampleFailedC8) (some exampleGoodC8)
      = Except.error "random_username_risk" :=
  ⟨rfl, rfl, rfl⟩

/-- Modelled from the spec: the frequency of the no-avatar feature among
the trailing-window successful population — the quantity §4.5's
false-positive guard consults for the avatar feature.  The code computes no
such quantity (`get_good_users_stats` has no avatar frequency), which is
what claim C7 founders on. -/
def specNoAvatarFreqGood (rows : List GoodUserRow) (nowT days : ℤ) : ℚ :=
  let cutoff := nowT - days * 24 * 60 * 60
  let recent := rows.filter (fun r => decide (cutoff ≤ r.verified_at))
  ((recent.filter (fun r => decide (r.photo_count = 0))).length : ℚ) / recent.length

/-- C7 successful population: 30 users inside the window, every one of them
with zero profile photos (no-avatar frequency 1 among successes). -/
def goodRowsC7 : List GoodUserRow :=
  List.replicate 30
    { user_id := 1, username := some "ok", language_code := some "ru",
      is_premium := false, photo_count := 0, scoring_score := 0,
      verified_at := 999999 }

/-- C7 configuration: all keys present (so the tuner reaches its feature
blocks), `no_avatar_risk = 15`. -/
def cfgC7 : PyScoringCfg :=
  { threshold := 50, lang_distribution := [], max_lang_risk := 25,
    no_lang_risk := 15, max_id_risk := 20, premium_bonus := -20,
    no_avatar_risk := 15, one_avatar_risk := 5, no_username_risk := 5,
    weird_name_risk := 10, arabic_cjk_risk := 25, auto_adjust := true,
    random_username_risk_opt := some 15 }

/-- C7 failed population: 50 failures, 80% of them without an avatar. -/
def failedC7 : FailedStats :=
  { total_failed := 50, no_username_rate := 0, arabic_cjk_rate := 0,
    weird_name_rate := 0, no_avatar_rate := 4/5, one_avatar_rate := 0,
    no_language_rate := 0, id_above_p95_rate := 0, id_above_p99_rate := 0,
    avg_failed_score := 0 }

/-- The tuner outcome on the C7 counterexample input: `no_avatar_risk`
raised 15 → 20, nothing suppressed. -/
def outcomeC7 : AdjustOutcome :=
  { no_username_risk := 5, arabic_cjk_risk := 25, weird_name_risk := 10,
    no_avatar_risk := 20, one_avatar_risk := 5, no_lang_risk := 15,
    max_id_risk := 20, random_username_risk := 15, threshold := 50,
    changes := [.adjusted "no_avatar_risk" 15 20] }

/-- The good-user statistics the store derives from the C7 population:
30 samples, no missing usernames or languages. -/
def gsC7val : GoodStats :=
  { total_good := 30, no_username_rate := 0, no_language_rate := 0,
    premium_rate := 0, avg_user_id := 1, avg_score := 0 }

theorem goodStatsC7_eval :
    getGoodUsersStats goodRowsC7 1000000 7 30 = some gsC7val := by
  have h1 : goodRowsC7.filter
      (fun r => decide ((1000000:ℤ) - 7 * 24 * 60 * 60 ≤ r.verified_at))
      = goodRowsC7 := by decide
  simp only [getGoodUsersStats]
  rw [h1]
  have h2 : goodRowsC7.filter (fun r => optStrFalsy r.username) = [] := by decide
  have h3 : goodRowsC7.filter (fun r => optStrFalsy r.language_code) = [] := by decide
  have h4 : goodRowsC7.filter (fun r => r.is_premium) = [] := by decide
  have h5 : goodRowsC7.length = 30 := by decide
  have h6 : (goodRowsC7.map GoodUserRow.user_id).sum = 30 := by decide
  have h7 : (goodRowsC7.map GoodUserRow.scoring_score).sum = 0 := by decide
  rw [h2, h3, h4, h5, h6, h7, if_neg (by norm_num)]
  unfold gsC7val
  norm_num [pyTrunc]

theorem zeroRate_unguarded (feat : String) (old ceiling : ℤ) :
    adjustUnguarded feat 0 old ceiling = ⟨old, [], false⟩ := by
  simp only [adjustUnguarded]
  rw [if_neg (by norm_num)]

theorem zeroRate_guarded (feat : String) (hasGood : Bool) (goodRate : ℚ)
    (old ceiling : ℤ) :
    adjustGuarded feat 0 hasGood goodRate old ceiling = ⟨old, [], false⟩ := by
  simp only [adjustGuarded]
  rw [if_neg (by norm_num)]

theorem idRisk_zero_rates (old : ℤ) : adjustIdRisk 0 0 old = ⟨old, [], false⟩ := by
  simp only [adjustIdRisk]
  rw [if_neg (by norm_num), if_neg (by norm_num)]

theorem threshold_zero_avg (t : ℤ) : adjustThresholdStep t 0 = (t, [], false) := by
  simp only [adjustThresholdStep]
  rw [if_neg (by norm_num)]

/-- **C7 (counterexample).** The no-avatar feature exceeds the 0.70 failed
frequency (0.80), at least 30 successful samples exist, and the no-avatar
frequency among successful users is 1 > 0.50 — yet the tuner increases
`no_avatar_risk` from 15 to 20 with no suppression: the false-positive
guard is not applied to this monitored feature. -/
theorem claim_C7_counterexample :
    (7/10 : ℚ) < failedC7.no_avatar_rate
    ∧ (getGoodUsersStats goodRowsC7 1000000 7 30).isSome = true
    ∧ (1/2 : ℚ) < specNoAvatarFreqGood goodRowsC7 1000000 7
    ∧ autoAdjustScoring (some cfgC7) (some failedC7)
        (getGoodUsersStats goodRowsC7 1000000 7 30)
      = Except.ok (some outcomeC7) := by
  refine ⟨by norm_num [failedC7], by rw [goodStatsC7_eval]; rfl, ?_, ?_⟩
  · have h1 : goodRowsC7.filter
        (fun r => decide ((1000000:ℤ) - 7 * 24 * 60 * 60 ≤ r.verified_at))
        = goodRowsC7 := by decide
    have h8 : goodRowsC7.filter (fun r => decide (r.photo_count = 0))
        = goodRowsC7 := by decide
    have h5 : goodRowsC7.length = 30 := by decide
    simp only [specNoAvatarFreqGood]
    rw [h1, h8, h5]
    norm_num
  · rw [goodStatsC7_eval]
    have hA : adjustUnguarded "no_avatar_risk" (4/5) 15 30
        = ⟨20, [.adjusted "no_avatar_risk" 15 20], true⟩ := by
      simp only [adjustUnguarded]
      rw [if_pos (by norm_num : (7:ℚ)/10 < 4/5), if_pos (by norm_num)]
      norm_num
    simp only [autoAdjustScoring, cfgC7, failedC7, gsC7val, Option.isSome_some,
      zeroRate_unguarded, zeroRate_guarded, idRisk_zero_rates, threshold_zero_avg, hA]
    norm_num [outcomeC7]

/-- **C7 (amended).** The false-positive guard is applied for the
no-username and the no-language features: when the feature's failed
frequency exceeds 0.70, successful statistics are present (which the store
only yields with ≥ 30 successful samples) and the feature's successful
frequency exceeds 0.50, any outcome the tuner returns keeps that feature's
weight unchanged and contains the logged suppression. -/
theorem claim_C7_amended_guard_for_username_and_language
    (config : PyScoringCfg) (randW : ℤ) (fs : FailedStats) (gs : GoodStats)
    (o : AdjustOutcome)
    (hrand : config.random_username_risk_opt = some randW)
    (hU : 7/10 < fs.no_username_rate) (hgU : 1/2 < gs.no_username_rate)
    (hL : 7/10 < fs.no_language_rate) (hgL : 1/2 < gs.no_language_rate)
    (hres : autoAdjustScoring (some config) (some fs) (some gs)
      = Except.ok (some o)) :
    o.no_username_risk = config.no_username_risk
    ∧ TunerChange.suppressed "no_username_risk" ∈ o.changes
    ∧ o.no_lang_risk = config.no_lang_risk
    ∧ TunerChange.suppressed "no_lang_risk" ∈ o.changes := by
  have hAuto : config.auto_adjust = true := by
    by_contra hcon
    rw [Bool.not_eq_true] at hcon
    simp [autoAdjustScoring, hcon] at hres
  have hbU : (Option.isSome (some gs) && decide ((1:ℚ)/2 < gs.no_username_rate))
      = true := by
    rw [Option.isSome_some, Bool.true_and, decide_eq_true_eq]
    exact hgU
  have hbL : (Option.isSome (some gs) && decide ((1:ℚ)/2 < gs.no_language_rate))
      = true := by
    rw [Option.isSome_some, Bool.true_and, decide_eq_true_eq]
    exact hgL
  have haU : adjustGuarded "no_username_risk" fs.no_username_rate
      (Option.isSome (some gs)) gs.no_username_rate config.no_username_risk 30
      = ⟨config.no_username_risk, [.suppressed "no_username_risk"], false⟩ := by
    simp only [adjustGuarded]
    rw [if_pos hU, if_pos hbU]
  have haL : adjustGuarded "no_lang_risk" fs.no_language_rate
      (Option.isSome (some gs)) gs.no_language_rate config.no_lang_risk 25
      = ⟨config.no_lang_risk, [.suppressed "no_lang_risk"], false⟩ := by
    simp only [adjustGuarded]
    rw [if_pos hL, if_pos hbL]
  simp only [autoAdjustScoring, hAuto, hrand, haU, haL] at hres
  rw [if_neg (by decide : ¬ (true = false))] at hres
  split at hres
  · rw [Except.ok.injEq, Option.some.injEq] at hres
    subst hres
    refine ⟨rfl, ?_, rfl, ?_⟩
    · simp
    · simp
  · simp at hres

/-- Witness configuration for the amended C7 (all keys present). -/
def cfgWitC7 : PyScoringCfg := cfgC7

/-- Witness failed population for the amended C7: no-username, no-language
and arabic/CJK all at 80% among failures. -/
def failedWitC7 : FailedStats :=
  { total_failed := 50, no_username_rate := 4/5, arabic_cjk_rate := 4/5,
    weird_name_rate := 0, no_avatar_rate := 0, one_avatar_rate := 0,
    no_language_rate := 4/5, id_above_p95_rate := 0, id_above_p99_rate := 0,
    avg_failed_score := 0 }

/-- Witness successful population for the amended C7: 40 samples with
no-username and no-language both at 60% — above the 0.50 guard. -/
def goodWitC7 : GoodStats :=
  { total_good := 40, no_username_rate := 3/5, no_language_rate := 3/5,
    premium_rate := 0, avg_user_id := 0, avg_score := 0 }

/-- The tuner outcome on the amended-C7 witness input: both guarded weights
unchanged and suppressed, arabic/CJK raised 25 → 30. -/
def outWitC7 : AdjustOutcome :=
  { no_username_risk := 5, arabic_cjk_risk := 30, weird_name_risk := 10,
    no_avatar_risk := 15, one_avatar_risk := 5, no_lang_risk := 15,
    max_id_risk := 20, random_username_risk := 15, threshold := 50,
    changes := [.suppressed "no_username_risk",
      .adjusted "arabic_cjk_risk" 25 30, .suppressed "no_lang_risk"] }

/-- Witness for the amended C7: a concrete run in which both guards fire
(both features are common among failures *and* successes) while the
arabic/CJK weight legitimately rises, so the tuner does return an outcome:
both suppressions are logged and both guarded weights are unchanged. -/
theorem claim_C7_amended_guard_witness :
    (cfgWitC7.random_username_risk_opt = some 15
      ∧ (7/10 : ℚ) < failedWitC7.no_username_rate
      ∧ (1/2 : ℚ) < goodWitC7.no_username_rate
      ∧ (7/10 : ℚ) < failedWitC7.no_language_rate
      ∧ (1/2 : ℚ) < goodWitC7.no_language_rate)
    ∧ (outWitC7.no_username_risk = cfgWitC7.no_username_risk
      ∧ TunerChange.suppressed "no_username_risk" ∈ outWitC7.changes
      ∧ outWitC7.no_lang_risk = cfgWitC7.no_lang_risk
      ∧ TunerChange.suppressed "no_lang_risk" ∈ outWitC7.changes) := by
  have hcondU : (true && decide ((1:ℚ)/2 < 3/5)) = true := by
    rw [Bool.true_and, decide_eq_true_eq]
    norm_num
  have hU : adjustGuarded "no_username_risk" (4/5) true (3/5) 5 30
      = ⟨5, [.suppressed "no_username_risk"], false⟩ := by
    simp only [adjustGuarded]
    rw [if_pos (by norm_num : (7:ℚ)/10 < 4/5), if_pos hcondU]
  have hC : adjustUnguarded "arabic_cjk_risk" (4/5) 25 40
      = ⟨30, [.adjusted "arabic_cjk_risk" 25 30], true⟩ := by
    simp only [adjustUnguarded]
    rw [if_pos (by norm_num : (7:ℚ)/10 < 4/5), if_pos (by norm_num)]
    norm_num
  have hLG : adjustGuarded "no_lang_risk" (4/5) true (3/5) 15 25
      = ⟨15, [.suppressed "no_lang_risk"], false⟩ := by
    simp only [adjustGuarded]
    rw [if_pos (by norm_num : (7:ℚ)/10 < 4/5), if_pos hcondU]
  have hresW : autoAdjustScoring (some cfgWitC7) (some failedWitC7) (some goodWitC7)
      = Except.ok (some outWitC7) := by
    simp only [autoAdjustScoring, cfgWitC7, cfgC7, failedWitC7, goodWitC7,
      Option.isSome_some, hU, hC, hLG, zeroRate_unguarded, idRisk_zero_rates,
      threshold_zero_avg]
    norm_num [outWitC7]
  exact ⟨⟨rfl, by norm_num [failedWitC7], by norm_num [goodWitC7],
    by norm_num [failedWitC7], by norm_num [goodWitC7]⟩,
   claim_C7_amended_guard_for_username_and_language cfgWitC7 15 failedWitC7
     goodWitC7 outWitC7 rfl (by norm_num [failedWitC7]) (by norm_num [goodWitC7])
     (by norm_num [failedWitC7]) (by norm_num [goodWitC7]) hresW⟩

/-! ## Attack detector (`bot/utils/detector.py`) and join handler
(`bot/handlers/members.py`)

The detector reads the chat row, records the join in the window counter,
and decides: kick the current user?  did an attack start or end on this
event?  `db.set_protection_active` is the compare-and-set primitive
(database.py lines 148-164: the SQL `UPDATE … WHERE protection_active = …`
reports whether a row actually changed); `db.increment_kicked` bumps the
*open* attack session's `total_kicked` (database.py lines 209-215: the SQL
`UPDATE … WHERE end_time IS NULL` is a no-op without an open session). -/

/-- The `chats` row fields the detector consumes (database.py lines 30-50). -/
structure ChatData where
  threshold : ℤ
  time_window : ℤ
  protect_premium : Bool
  protection_active : Bool
deriving DecidableEq

/-- The dictionary `AttackDetector.check_and_handle_join` returns
(detector.py lines 56-62); `users_to_kick` is `some …` exactly when the
key was added (the attack-started branch). -/
structure DetectorResult where
  should_kick : Bool
  reason : String
  attack_started : Bool
  attack_ended : Bool
  users_to_kick : Option (List ℤ)
deriving DecidableEq

/-- The mutable state the detector touches: the chat rows, the in-memory
join counter, and per chat the open attack session's `total_kicked`
(`none` = no open session) plus the last closed session's final count. -/
structure SysState where
  chats : Int → Option ChatData
  counter : JoinCounter
  openSessionKicked : Int → Option ℕ
  lastClosedKicked : Int → Option ℕ

/-- `Database.set_protection_active` (database.py lines 148-164): the CAS —
returns `true` (row changed) iff the chat exists and the stored flag
differed from the desired value. -/
def dbSetProtectionActive (s : SysState) (chatId : Int) (active : Bool) :
    Bool × SysState :=
  match s.chats chatId with
  | none => (false, s)
  | some cd =>
    if cd.protection_active ≠ active then
      let cd2 : ChatData := { cd with protection_active := active }
      (true, { s with chats := Function.update s.chats chatId (some cd2) })
    else (false, s)

/-- `Database.increment_kicked` (database.py lines 209-215): adds 1 to the
open session's counter; without an open session the UPDATE matches no row. -/
def dbIncrementKicked (s : SysState) (chatId : Int) : SysState :=
  match s.openSessionKicked chatId with
  | some k =>
    { s with openSessionKicked := Function.update s.openSessionKicked chatId (some (k + 1)) }
  | none => s

/-- `Database.start_attack_session` (database.py lines 191-199): a fresh
open session with `total_kicked = 0`. -/
def dbStartAttackSession (s : SysState) (chatId : Int) : SysState :=
  { s with openSessionKicked := Function.update s.openSessionKicked chatId (some 0) }

/-- `Database.end_attack_session` (database.py lines 201-207): close the
open session, freezing its `total_kicked`. -/
def dbEndAttackSession (s : SysState) (chatId : Int) : SysState :=
  match s.openSessionKicked chatId with
  | some k =>
    { s with openSessionKicked := Function.update s.openSessionKicked chatId none
             lastClosedKicked := Function.update s.lastClosedKicked chatId (some k) }
  | none => s

/-- `AttackDetector.check_and_handle_join` (detector.py lines 12-132),
sequential semantics.  Notification/log-message construction is omitted;
every state-changing call (`add_join`, `count_in_window`,
`increment_kicked`, the CAS, session open/close, `get_users_in_window`) is
kept in source order. -/
def checkAndHandleJoin (s : SysState) (chatId : Int) (user : TgUser)
    (now : ℚ) : DetectorResult × SysState :=
  match s.chats chatId with
  | none =>
    ({ should_kick := false, reason := "chat_not_protected",
       attack_started := false, attack_ended := false, users_to_kick := none }, s)
  | some chatData =>
    let isPrem := user.is_premium.getD false
    let s1 := { s with counter := addJoin s.counter chatId (some user.id) isPrem now }
    let rc := countInWindow s1.counter chatId chatData.time_window now
    let recentJoins := rc.1
    let s2 := { s1 with counter := rc.2 }
    if chatData.protection_active then
      let kr : Bool × String × SysState :=
        if isPrem && chatData.protect_premium then (false, "premium_protected", s2)
        else (true, "protection_mode", dbIncrementKicked s2 chatId)
      if (recentJoins : ℤ) < chatData.threshold then
        let cas := dbSetProtectionActive kr.2.2 chatId false
        if cas.1 then
          ({ should_kick := kr.1, reason := kr.2.1, attack_started := false,
             attack_ended := true, users_to_kick := none },
           dbEndAttackSession cas.2 chatId)
        else
          ({ should_kick := kr.1, reason := kr.2.1, attack_started := false,
             attack_ended := false, users_to_kick := none }, cas.2)
      else
        ({ should_kick := kr.1, reason := kr.2.1, attack_started := false,
           attack_ended := false, users_to_kick := none }, kr.2.2)
    else
      if chatData.threshold ≤ (recentJoins : ℤ) then
        let cas := dbSetProtectionActive s2 chatId true
        if cas.1 then
          let s4 := dbStartAttackSession cas.2 chatId
          let uw := getUsersInWindow s4.counter chatId chatData.time_window now
          let s5 := { s4 with counter := uw.2 }
          let usersToKick := (uw.1.filter (fun u =>
            !(u.1 == user.id) && !(u.2 && chatData.protect_premium))).map Prod.fst
          if isPrem && chatData.protect_premium then
            ({ should_kick := false, reason := "", attack_started := true,
               attack_ended := false, users_to_kick := some usersToKick }, s5)
          else
            ({ should_kick := true, reason := "attack_detected",
               attack_started := true, attack_ended := false,
               users_to_kick := some usersToKick }, dbIncrementKicked s5 chatId)
        else
          if isPrem && chatData.protect_premium then
            ({ should_kick := false, reason := "", attack_started := false,
               attack_ended := false, users_to_kick := none }, cas.2)
          else
            ({ should_kick := true, reason := "attack_detected",
               attack_started := false, attack_ended := false,
               users_to_kick := none }, dbIncrementKicked cas.2 chatId)
      else
        ({ should_kick := false, reason := "", attack_started := false,
           attack_ended := false, users_to_kick := none }, s2)

/-- The observable removal actions of one `on_new_member` run. -/
structure MemberActions where
  windowKickAttempts : List ℤ
  windowKickSuccesses : ℕ
  currentKickAttempted : Bool
  currentKickSucceeded : Bool
deriving DecidableEq

def noActs : MemberActions :=
  { windowKickAttempts := [], windowKickSuccesses := 0,
    currentKickAttempted := false, currentKickSucceeded := false }

/-- The attack-started batch of `on_new_member` (members.py lines 96-117):
attempt to kick every user the detector collected from the window
(`kick_user_safe` returns whether the gateway call succeeded), count the
successes from the gathered results, and add that many increments to the
attack-session counter. -/
def windowKickPhase (result : DetectorResult) (s : SysState) (chatId : Int)
    (gateway : Int → Bool) : MemberActions × SysState :=
  if result.attack_started then
    match result.users_to_kick with
    | some uids =>
      let succ := (uids.filter gateway).length
      ({ windowKickAttempts := uids, windowKickSuccesses := succ,
         currentKickAttempted := false, currentKickSucceeded := false },
       (fun st => dbIncrementKicked st chatId)^[succ] s)
    | none => (noActs, s)
  else (noActs, s)

/-- The kick decisions of `on_new_member` (members.py lines 89-136): the
window batch when an attack started, then the current user — who is kicked
only when the detector said `should_kick` *and* the attack did not end on
this very event (the guard at members.py line 128). -/
def onNewMemberKicks (result : DetectorResult) (s : SysState) (chatId : Int)
    (user : TgUser) (gateway : Int → Bool) : MemberActions × SysState :=
  let p := windowKickPhase result s chatId gateway
  if result.should_kick && !result.attack_ended then
    ({ p.1 with currentKickAttempted := true,
                currentKickSucceeded := gateway user.id }, p.2)
  else p

theorem windowKickPhase_no_current (result : DetectorResult) (s : SysState)
    (chatId : Int) (gateway : Int → Bool) :
    (windowKickPhase result s chatId gateway).1.currentKickAttempted = false := by
  unfold windowKickPhase
  split
  · split <;> rfl
  · rfl

/-- **C4.** If a join event triggers the Mitigating → Normal transition
(the detector reports `attack_ended` for this event), then the joining
user is not removed: the handler's guard makes
removal-of-the-current-user and attack-ended mutually exclusive outcomes
of the same event. -/
theorem claim_C4_attack_end_spares_current_user (s : SysState) (chatId : Int)
    (user : TgUser) (now : ℚ) (gateway : Int → Bool)
    (h : (checkAndHandleJoin s chatId user now).1.attack_ended = true) :
    (onNewMemberKicks (checkAndHandleJoin s chatId user now).1
        (checkAndHandleJoin s chatId user now).2 chatId user
        gateway).1.currentKickAttempted = false := by
  unfold onNewMemberKicks
  rw [h]
  simp only [Bool.not_true, Bool.and_false, Bool.false_eq_true, if_false]
  exact windowKickPhase_no_current _ _ _ _

/-- A chat in mitigation mode: threshold 10 over a 60-second window, no
premium protection, protection currently active. -/
def chatMit : ChatData :=
  { threshold := 10, time_window := 60, protect_premium := false,
    protection_active := true }

/-- State: chat 1 under mitigation with an open attack session
(`total_kicked = 0`) and an empty join window. -/
def sMit : SysState :=
  { chats := fun c => if c = 1 then some chatMit else none
    counter := JoinCounter.empty
    openSessionKicked := fun c => if c = 1 then some 0 else none
    lastClosedKicked := fun _ => none }

/-- A plain, non-premium joining user. -/
def userMit : TgUser := { id := 77 }

/-- Evaluation: when `userMit` joins chat 1 at time 100 under `sMit`, the
windowed count (1) is below the threshold (10), so this very event ends
the attack — while `should_kick` was already set and the kicked counter
already incremented. -/
theorem detMit_result : (checkAndHandleJoin sMit 1 userMit 100).1
    = { should_kick := true, reason := "protection_mode", attack_started := false,
        attack_ended := true, users_to_kick := none } := by
  have hsub : (100:ℚ) - ((60:ℤ):ℚ) = 40 := by norm_num
  simp only [checkAndHandleJoin, sMit, chatMit, userMit, addJoin, countInWindow,
    JoinCounter.empty, hsub, dbSetProtectionActive, dbEndAttackSession,
    dbIncrementKicked, Function.update]
  norm_num

theorem detMit_closed_counter :
    (checkAndHandleJoin sMit 1 userMit 100).2.lastClosedKicked 1 = some 1 := by
  have hsub : (100:ℚ) - ((60:ℤ):ℚ) = 40 := by norm_num
  simp only [checkAndHandleJoin, sMit, chatMit, userMit, addJoin, countInWindow,
    JoinCounter.empty, hsub, dbSetProtectionActive, dbEndAttackSession,
    dbIncrementKicked, Function.update]
  norm_num

/-- Witness for C4: in the concrete mitigation-ending run the detector does
report `attack_ended`, and the handler does not kick the joining user. -/
theorem claim_C4_witness :
    (checkAndHandleJoin sMit 1 userMit 100).1.attack_ended = true
    ∧ (onNewMemberKicks (checkAndHandleJoin sMit 1 userMit 100).1
        (checkAndHandleJoin sMit 1 userMit 100).2 1 userMit
        (fun _ => true)).1.currentKickAttempted = false := by
  have hend : (checkAndHandleJoin sMit 1 userMit 100).1.attack_ended = true := by
    rw [detMit_result]
  exact ⟨hend,
    claim_C4_attack_end_spares_current_user sMit 1 userMit 100 (fun _ => true) hend⟩

/-- **C5 (refuted by the code).** In the concrete run where the same join
event ends the attack, the spared user is never kicked (no removal is even
attempted — the handler performs no gateway call at all), yet the attack
session closes with `total_kicked = 1`: `db.increment_kicked` fires at
decision time inside the detector (detector.py line 73), before and
regardless of any verified removal.  So the kicked counter is not
"incremented exactly once per removal verified to succeed". -/
theorem claim_C5_counter_bumped_without_removal :
    (checkAndHandleJoin sMit 1 userMit 100).1.attack_ended = true
    ∧ (onNewMemberKicks (checkAndHandleJoin sMit 1 userMit 100).1
        (checkAndHandleJoin sMit 1 userMit 100).2 1 userMit (fun _ => false)).1
      = noActs
    ∧ (onNewMemberKicks (checkAndHandleJoin sMit 1 userMit 100).1
        (checkAndHandleJoin sMit 1 userMit 100).2 1 userMit
        (fun _ => false)).2.lastClosedKicked 1 = some 1 := by
  refine ⟨by rw [detMit_result], ?_, ?_⟩
  · rw [detMit_result]
    simp [onNewMemberKicks, windowKickPhase, noActs]
  · rw [detMit_result]
    simp only [onNewMemberKicks, windowKickPhase]
    simp
    exact detMit_closed_counter

/-! ## Verification workflow (`bot/handlers/captcha.py`, `bot/database.py`) -/

/-- A `pending_captcha` table row (database.py lines 61-70): the table has
exactly these six columns — no risk-score column exists. -/
structure PendingCaptchaRow where
  chat_id : ℤ
  user_id : ℤ
  message_id : ℤ
  correct_answer : String
  created_at : ℤ
  expires_at : ℤ
deriving DecidableEq

/-- `Database.add_pending_captcha` (database.py lines 239-247): the INSERT
stores the key, the challenge message id, the answer and the two
timestamps — and nothing else.  (`send_captcha` at captcha.py lines 169-172
passes a sixth positional argument, `scoring_score`, which this signature
does not accept: the call raises `TypeError`, caught by `send_captcha`'s
blanket `except`.) -/
def addPendingCaptcha (chatId userId messageId : ℤ) (correctAnswer : String)
    (expiresAt : ℤ) (nowT : ℤ) : PendingCaptchaRow :=
  { chat_id := chatId, user_id := userId, message_id := messageId,
    correct_answer := correctAnswer, created_at := nowT, expires_at := expiresAt }

/-- A column value of `dict(row)`. -/
inductive PendingVal where
  | int (v : ℤ)
  | str (s : String)
deriving DecidableEq

/-- `dict(row)` lookup on a pending row: exactly the six column names are
present keys. -/
def pendingRowGet (r : PendingCaptchaRow) (key : String) : Option PendingVal :=
  if key = "chat_id" then some (.int r.chat_id)
  else if key = "user_id" then some (.int r.user_id)
  else if key = "message_id" then some (.int r.message_id)
  else if key = "correct_answer" then some (.str r.correct_answer)
  else if key = "created_at" then some (.int r.created_at)
  else if key = "expires_at" then some (.int r.expires_at)
  else none

/-- The risk score the correct-answer path stores into the successful
outcome record: `pending.get('scoring_score', 0)` (captcha.py lines
317-326). -/
def resolvedScore (r : PendingCaptchaRow) : ℤ :=
  match pendingRowGet r "scoring_score" with
  | some (.int v) => v
  | _ => 0

/-- **C6 (refuted by the code).** Whatever pending record the store can
hold, the successful outcome is recorded with score 0 — never with the
risk score precomputed at challenge-issue time: the `pending_captcha`
schema and `add_pending_captcha` have no score column (and the call that
tries to pass one raises `TypeError`), so `pending.get('scoring_score', 0)`
always returns its default. -/
theorem claim_C6_precomputed_score_not_stored (chatId userId messageId : ℤ)
    (ans : String) (expiresAt nowT : ℤ) :
    resolvedScore (addPendingCaptcha chatId userId messageId ans expiresAt nowT) = 0
    ∧ ∀ r : PendingCaptchaRow, resolvedScore r = 0 :=
  ⟨rfl, fun _ => rfl⟩

/-! ## Verification resolution race (`bot/handlers/captcha.py`)

Both resolution paths are sequences of separately-awaited database and
gateway operations over the shared `(community, user)` verification state.
The race is modelled by interleaving the two sequences under an arbitrary
schedule; each operation is atomic, but the presence *check* and the
*deletion* are distinct operations — there is no compare-and-delete. -/

/-- The shared verification state and the terminal side-effect counters. -/
structure CapState where
  pending : Option PendingCaptchaRow
  goodRecords : ℕ
  failedRecords : ℕ
  removals : ℕ
  acceptances : ℕ
deriving DecidableEq

/-- The atomic operations the resolution paths perform. -/
inductive CapStep where
  | checkPending
  | removePending
  | writeGood
  | writeFailed
  | kickUser
deriving DecidableEq

/-- The correct-answer path of `handle_text_message` (captcha.py lines
259-354), reduced to its operations on the shared state, in source order:
`get_pending_captcha` (return silently when absent), …,
`remove_pending_captcha`, then `add_good_user` — the successful outcome
record and the acceptance. -/
def answerCorrectPath : List CapStep := [.checkPending, .removePending, .writeGood]

/-- `_captcha_timeout_handler` (captcha.py lines 191-257) after its sleep,
in source order: `get_pending_captcha` (return when absent),
`_log_failed_captcha_user` (the failed outcome record), the ban/unban kick,
then `remove_pending_captcha`. -/
def timeoutPath : List CapStep := [.checkPending, .writeFailed, .kickUser, .removePending]

/-- One resolution path mid-execution: its remaining operations and whether
it already returned (found no pending record). -/
structure CapProc where
  prog : List CapStep
  halted : Bool
deriving DecidableEq

/-- Execute one atomic operation of one path.  `checkPending` halts the
path when the record is absent (the silent no-op); `removePending` is the
unconditional SQL DELETE. -/
def stepOne (st : CapState) (p : CapProc) : CapState × CapProc :=
  if p.halted then (st, p)
  else
    match p.prog with
    | [] => (st, p)
    | a :: rest =>
      match a with
      | .checkPending =>
        if st.pending.isSome then (st, { prog := rest, halted := false })
        else (st, { prog := rest, halted := true })
      | .removePending => ({ st with pending := none }, { prog := rest, halted := false })
      | .writeGood =>
        ({ st with goodRecords := st.goodRecords + 1,
                   acceptances := st.acceptances + 1 }, { prog := rest, halted := false })
      | .writeFailed =>
        ({ st with failedRecords := st.failedRecords + 1 }, { prog := rest, halted := false })
      | .kickUser =>
        ({ st with removals := st.removals + 1 }, { prog := rest, halted := false })

/-- Interleave the two racing paths under a schedule (`true` = the
answer path takes the next step, `false` = the timeout path). -/
def runRace : List Bool → CapState → CapProc → CapProc → CapState
  | [], st, _, _ => st
  | b :: rest, st, p1, p2 =>
    if b then
      let r := stepOne st p1
      runRace rest r.1 r.2 p2
    else
      let r := stepOne st p2
      runRace rest r.1 p1 r.2

/-- A live pending verification for the race. -/
def rowC2 : PendingCaptchaRow := addPendingCaptcha 1 2 3 "8" 1060 1000

/-- **C2 (refuted by the code).** The presence check (`get_pending_captcha`)
and the deletion (`remove_pending_captcha`) are separate awaited operations
with further awaits between them — there is no atomic check-then-delete.
In the schedule where the timeout handler runs entirely between the
answer path's presence check and its deletion, both paths observe the
record present, and the race ends with BOTH outcome records written (one
good, one failed) and BOTH terminal actions performed (an acceptance and a
removal) — not exactly one. -/
theorem claim_C2_both_paths_act :
    runRace [true, false, false, false, false, true, true]
      { pending := some rowC2, goodRecords := 0, failedRecords := 0,
        removals := 0, acceptances := 0 }
      { prog := answerCorrectPath, halted := false }
      { prog := timeoutPath, halted := false }
    = { pending := none, goodRecords := 1, failedRecords := 1,
        removals := 1, acceptances := 1 } := rfl

end NakrutkaGuard
